/-
Verification of the annotation (drawing-layer) subsystem of the notebook-viewer
repository against its natural-language specification.

The development shallowly embeds the JavaScript source:
  * `SingleCanvas` models the single-canvas vector variant
    (src/js/drawing.js, src/unnamed/part_000 = config.js,
     src/unnamed/part_001 = touch-handler.js): the shared mutable `state`,
    `pendingStroke`, `longPressState` objects become one `State` structure,
    and the DOM event handlers become `State → State` functions.  The 2D
    canvas context is modelled by the current path point (`ctxPoint`), the
    last-assigned paint settings (`ctxSettings`) and the list of painted
    line segments (`surface`); `ctx.stroke()` re-strokes the whole current
    path, which is idempotent on the raster, so the model records only the
    newly appended segment.
  * `DrawingAPI` models the dual-pane raster variant
    (src/js/api/DrawingAPI.js): the stylus classifier, brush settings, the
    two-tier save/load persistence gateway, and the trailing-debounce
    autosave timer.  Network responses and browser codec primitives
    (toDataURL, image decode, localStorage quota) are external effects and
    are passed in explicitly as data.

JavaScript numbers are modelled exactly: coordinates and scroll offsets as
integers (the claims under verification are insensitive to fractional CSS
pixels), contact radii and line widths as rationals; DOM layout inputs
(bounding rectangles, scrollTop) are passed as an explicit environment.
-/
import Mathlib

/-- One member of a TouchList as the handlers inspect it: the platform touch
type (`touchType`, absent on non-Apple platforms), the contact radii and the
viewport position. -/
structure Touch where
  touchType : Option String
  radiusX : Option ℚ
  radiusY : Option ℚ
  clientX : Int
  clientY : Int
deriving DecidableEq, Repr

namespace SingleCanvas

/-- `isStylus` from touch-handler.js (lines 11-29), the strict single-canvas
classifier: `touchType === 'stylus'` is accepted, `'direct'` is rejected, and
every other sample (including `touchType === undefined`) is rejected.  The
`updateDebugPanel` / `updateDebugResult` calls in the source only write to the
debug panel and do not influence the returned value; the average radius is
computed there only for the debug message, never for the decision. -/
def isStylus (touch : Touch) : Bool :=
  if touch.touchType = some "stylus" then true
  else if touch.touchType = some "direct" then false
  else false

end SingleCanvas

namespace DrawingAPI

/-- `isStylus` from DrawingAPI.js (lines 1560-1596), the dual-pane classifier:
trust an explicit `touchType` when present; otherwise average the two contact
radii when both are present (average < 8 ⇒ stylus, average > 15 ⇒ not a
stylus); otherwise, and for an inconclusive in-between radius, default to
`true` (permissive).  The `force` check in the source is an empty comment
block with no effect. -/
def isStylus (touch : Touch) : Bool :=
  if touch.touchType.isSome then
    touch.touchType = some "stylus"
  else
    match touch.radiusX, touch.radiusY with
    | some rx, some ry =>
      let avgRadius := (rx + ry) / 2
      if avgRadius < 8 then true
      else if 15 < avgRadius then false
      else true
    | _, _ => true

end DrawingAPI

namespace SingleCanvas

/-- A recorded stroke point (content coordinates in the vector log, screen
coordinates on the canvas path). -/
structure Point where
  x : Int
  y : Int
deriving DecidableEq, Repr

/-- One painted line segment on the raster surface, in screen coordinates. -/
structure Segment where
  p : Point
  q : Point
deriving DecidableEq, Repr

/-- A vector stroke as built by the handlers: `{tool, color, width, points}`. -/
structure Stroke where
  tool : String
  color : String
  width : ℚ
  points : List Point
deriving DecidableEq, Repr

/-- The 2D-context paint settings the handlers assign before stroking. -/
structure CtxSettings where
  strokeStyle : String
  lineWidth : ℚ
  lineCap : String
  lineJoin : String
  compositeOp : String
deriving DecidableEq, Repr

/-- The `pendingStroke` delayed-confirmation record from config.js (lines
56-65), fields in source order. -/
structure PendingStroke where
  active : Bool
  startX : Int
  startY : Int
  contentX : Int
  contentY : Int
  confirmed : Bool
  confirmCount : Nat
  scrollTop : Int
deriving DecidableEq, Repr

/-- The `longPressState` record from config.js (lines 38-44); the `timer`
handle is modelled by whether a timer is armed. -/
structure LongPress where
  startX : Int
  startY : Int
  isActive : Bool
  hasMoved : Bool
  timerArmed : Bool
deriving DecidableEq, Repr

/-- The shared mutable drawing state of the single-canvas variant: the
relevant fields of `state` from config.js (lines 9-25) together with
`pendingStroke`, `longPressState`, the canvas-context model and the
localStorage model.  `surface` is the list of line segments painted so far;
`ctxPoint` is the current point of the context path (`none` after
`beginPath()`); `storage` maps localStorage keys to the stored stroke log
(`JSON.stringify`/`parse` are modelled as the identity on the value). -/
structure State where
  drawingActive : Bool
  isDrawing : Bool
  currentTool : String
  currentColor : String
  currentLineWidth : ℚ
  lastX : Int
  lastY : Int
  currentStroke : Option Stroke
  drawingData : List Stroke
  currentFileName : String
  pending : PendingStroke
  longPress : LongPress
  ctxPoint : Option Point
  ctxSettings : CtxSettings
  surface : List Segment
  storage : List (String × List Stroke)
deriving DecidableEq, Repr

/-- The DOM layout the handlers read on each event: the content-wrapper
scroll position and bounding rectangle, and the canvas bounding-rectangle
origin. -/
structure Env where
  scrollTop : Int
  canvasLeft : Int
  canvasTop : Int
  wrapperLeft : Int
  wrapperRight : Int
  wrapperTop : Int
  wrapperBottom : Int
deriving DecidableEq, Repr

/-- A mouse event as consumed by startDrawing/draw (drawing.js). -/
structure MouseEv where
  clientX : Int
  clientY : Int
deriving DecidableEq, Repr

/-- The context-settings assignment common to `draw` (drawing.js 40-44) and
the confirmation block of `handlers.touchmove` (touch-handler.js 249-253):
white stroke and triple width in eraser mode, `destination-out` compositing
for the eraser, round caps and joins. -/
def strokeCtxSettings (tool color : String) (lineWidth : ℚ) : CtxSettings :=
  { strokeStyle := if tool = "eraser" then "#fff" else color
    lineWidth := if tool = "eraser" then lineWidth * 3 else lineWidth
    lineCap := "round"
    lineJoin := "round"
    compositeOp := if tool = "eraser" then "destination-out" else "source-over" }

/-- `ctx.lineTo(p); ctx.stroke()`: with a current path point, paints the
segment to `p` and moves the path point; on an empty path `lineTo` only
starts the path at `p` and `stroke()` paints nothing. -/
def ctxLineToStroke (p : Point) (s : State) : State :=
  match s.ctxPoint with
  | some q0 => { s with surface := s.surface ++ [⟨q0, p⟩], ctxPoint := some p }
  | none => { s with ctxPoint := some p }

/-- `saveDrawingToStorage` (drawing.js 129-132): a no-op without a current
file name, otherwise stores the stroke log under `drawing_<fileName>`. -/
def saveDrawingToStorage (s : State) : State :=
  if s.currentFileName = "" then s
  else
    { s with storage :=
        ("drawing_" ++ s.currentFileName, s.drawingData) ::
          s.storage.filter (fun e => ¬ e.1 = "drawing_" ++ s.currentFileName) }

/-- `startDrawing` (drawing.js 9-25): records the gesture start as the first
stroke point, with `y` stored as screen y plus the pane scrollTop. -/
def startDrawing (e : MouseEv) (env : Env) (s : State) : State :=
  if s.drawingActive = false then s
  else
    let screenX := e.clientX - env.canvasLeft
    let screenY := e.clientY - env.canvasTop
    { s with
      isDrawing := true
      lastX := screenX
      lastY := screenY + env.scrollTop
      currentStroke := some
        ⟨s.currentTool, s.currentColor, s.currentLineWidth,
          [⟨screenX, screenY + env.scrollTop⟩]⟩ }

/-- `draw` (drawing.js 28-52): appends the content-coordinate point to the
current stroke, paints the screen-space segment from the previous point, and
advances `lastX`/`lastY`.  A `null` `currentStroke` would throw in the source
before any paint, so the model returns the state unchanged in that case. -/
def draw (e : MouseEv) (env : Env) (s : State) : State :=
  if s.isDrawing = false ∨ s.drawingActive = false then s
  else
    match s.currentStroke with
    | none => s
    | some cs =>
      let screenX := e.clientX - env.canvasLeft
      let screenY := e.clientY - env.canvasTop
      let contentX := screenX
      let contentY := screenY + env.scrollTop
      let s1 := { s with
        currentStroke := some { cs with points := cs.points ++ [⟨contentX, contentY⟩] }
        ctxSettings := strokeCtxSettings s.currentTool s.currentColor s.currentLineWidth
        ctxPoint := some ⟨s.lastX, s.lastY - env.scrollTop⟩ }
      let s2 := ctxLineToStroke ⟨screenX, screenY⟩ s1
      { s2 with lastX := contentX, lastY := contentY }

/-- `stopDrawing` (drawing.js 55-64): seals the current stroke into the
stroke log and persists it only when it has more than one point, then resets
the compositing mode. -/
def stopDrawing (s : State) : State :=
  if s.isDrawing = false then s
  else
    let s1 := { s with isDrawing := false }
    let s2 :=
      match s1.currentStroke with
      | some cs =>
        if 1 < cs.points.length then
          saveDrawingToStorage { s1 with drawingData := s1.drawingData ++ [cs] }
        else s1
      | none => s1
    { s2 with
      currentStroke := none
      ctxSettings := { s2.ctxSettings with compositeOp := "source-over" } }

/-- The point mapping of the replay loop in `redrawCanvas` (drawing.js
84-88): each recorded point is drawn at screen y `p.y - scrollTop`. -/
def replayScreenPoint (p : Point) (scrollTop : Int) : Point :=
  ⟨p.x, p.y - scrollTop⟩

/-- The consecutive moveTo/lineTo pairs of one replayed polyline. -/
def strokeSegments : List Point → List Segment
  | p :: q :: rest => ⟨p, q⟩ :: strokeSegments (q :: rest)
  | _ => []

/-- `redrawCanvas` (drawing.js 67-92) as the list of segments it paints after
clearing: every stroke of the log replayed in order, each point mapped
through `replayScreenPoint` at the current scrollTop. -/
def redrawCanvas (drawingData : List Stroke) (scrollTop : Int) : List Segment :=
  (drawingData.map
    (fun st => strokeSegments (st.points.map (fun p => replayScreenPoint p scrollTop)))).flatten

end SingleCanvas

namespace SingleCanvas

/-- Resetting the pending stroke to idle, as done by several handler paths:
`active = false; confirmed = false; confirmCount = 0`. -/
def resetPending (p : PendingStroke) : PendingStroke :=
  { p with active := false, confirmed := false, confirmCount := 0 }

/-- `startLongPressDetection` (touch-handler.js 32-50): records the start
point, activates detection and (re)arms the 1-second timer.  The timer's
callback is not part of the touch-event traces modelled here. -/
def startLongPressDetection (x y : Int) (s : State) : State :=
  { s with longPress := ⟨x, y, true, false, true⟩ }

/-- `checkLongPressMovement` (touch-handler.js 53-61): marks the long press
as moved once the distance from the start exceeds 10.  `sqrt(dx² + dy²) > 10`
is expressed without the square root as `dx·dx + dy·dy > 100`. -/
def checkLongPressMovement (x y : Int) (s : State) : State :=
  if s.longPress.isActive = true ∧ s.longPress.hasMoved = false ∧
      100 < (x - s.longPress.startX) * (x - s.longPress.startX) +
        (y - s.longPress.startY) * (y - s.longPress.startY) then
    { s with longPress := { s.longPress with hasMoved := true } }
  else s

/-- `cancelLongPressDetection` (touch-handler.js 64-71). -/
def cancelLongPressDetection (s : State) : State :=
  { s with longPress := { s.longPress with isActive := false, timerArmed := false } }

/-- The shared tail of a drawing touch move (touch-handler.js 277-293):
compute screen and content coordinates, paint the segment to the screen
point, append the content point to the current stroke (guarded on
`state.currentStroke`, as in the source) and advance `lastX`/`lastY`. -/
def moveSegment (env : Env) (touch : Touch) (s : State) : State :=
  let screenX := touch.clientX - env.canvasLeft
  let screenY := touch.clientY - env.canvasTop
  let contentX := screenX
  let contentY := screenY + env.scrollTop
  let s1 := ctxLineToStroke ⟨screenX, screenY⟩ s
  let s2 := { s1 with
    currentStroke := s1.currentStroke.map
      (fun (cs : Stroke) =>
        { cs with points := cs.points ++ [(⟨contentX, contentY⟩ : Point)] }) }
  { s2 with lastX := contentX, lastY := contentY }

/-- `handlers.touchstart` (touch-handler.js 160-206).  A stylus-classified
single touch starts long-press detection and, when inside the
content-wrapper rectangle, enters pending confirmation with
`confirmCount = 1` and the start point recorded in both screen and content
coordinates; any other touch resets the pending stroke and breaks the
context path. -/
def touchstart (env : Env) (touches : List Touch) (s : State) : State :=
  if s.drawingActive = false then s
  else if touches.length ≠ 1 then s
  else
    match touches with
    | [touch] =>
      if isStylus touch = true then
        let s1 := startLongPressDetection touch.clientX touch.clientY s
        if touch.clientX < env.wrapperLeft ∨ env.wrapperRight < touch.clientX ∨
            touch.clientY < env.wrapperTop ∨ env.wrapperBottom < touch.clientY then s1
        else
          let screenX := touch.clientX - env.canvasLeft
          let screenY := touch.clientY - env.canvasTop
          { s1 with pending :=
              ⟨true, screenX, screenY, screenX, screenY + env.scrollTop, false, 1,
                env.scrollTop⟩ }
      else
        { s with pending := resetPending s.pending, ctxPoint := none }
    | _ => s

/-- `handlers.touchmove` (touch-handler.js 208-294).  A touch count other
than one aborts the pending stroke and stops drawing; while pending and
unconfirmed, a failing classification aborts, a passing one increments the
counter and, at `confirmCount ≥ 3`, confirms: the visible stroke is started
from the recorded start point (`moveTo(startX, startY)`), the vector stroke
begins at the recorded content point, and the handler then paints to the
current touch point. -/
def touchmove (env : Env) (touches : List Touch) (s : State) : State :=
  if s.drawingActive = false then s
  else if touches.length ≠ 1 then
    stopDrawing { s with pending := resetPending s.pending }
  else
    match touches with
    | [touch] =>
      if s.pending.active = false ∧ s.isDrawing = false then s
      else
        let isApplePencil := isStylus touch
        if s.pending.active = true ∧ s.pending.confirmed = false then
          if isApplePencil = false then
            { s with pending := resetPending s.pending }
          else
            let cnt := s.pending.confirmCount + 1
            if 3 ≤ cnt then
              let s1 := { s with
                pending := { s.pending with confirmed := true, confirmCount := cnt }
                isDrawing := true
                lastX := s.pending.contentX
                lastY := s.pending.contentY
                currentStroke := some
                  ⟨s.currentTool, s.currentColor, s.currentLineWidth,
                    [⟨s.pending.contentX, s.pending.contentY⟩]⟩
                ctxSettings :=
                  strokeCtxSettings s.currentTool s.currentColor s.currentLineWidth
                ctxPoint := some ⟨s.pending.startX, s.pending.startY⟩ }
              moveSegment env touch
                (checkLongPressMovement touch.clientX touch.clientY s1)
            else
              { s with pending := { s.pending with confirmCount := cnt } }
        else if s.isDrawing = false then s
        else if isApplePencil = false then
          { stopDrawing s with ctxPoint := none }
        else
          moveSegment env touch (checkLongPressMovement touch.clientX touch.clientY s)
    | _ => s

/-- `handlers.touchend` (touch-handler.js 296-311): resets the pending
stroke and, when a stroke was being drawn, cancels long-press detection and
seals the stroke.  The `isStylus` re-check in the source only gates
`preventDefault`. -/
def touchend (_changed : List Touch) (s : State) : State :=
  let s1 :=
    if s.pending.active = true then { s with pending := resetPending s.pending } else s
  if s1.isDrawing = true then stopDrawing (cancelLongPressDetection s1) else s1

/-- A touch event dispatched to the document-level listeners. -/
inductive Ev where
  | tstart (touches : List Touch)
  | tmove (touches : List Touch)
  | tend (changed : List Touch)
deriving DecidableEq, Repr

/-- Dispatch one event to its handler under the layout `env` read at event
time. -/
def step (env : Env) (ev : Ev) (s : State) : State :=
  match ev with
  | .tstart touches => touchstart env touches s
  | .tmove touches => touchmove env touches s
  | .tend changed => touchend changed s

/-- Process a trace of events in order. -/
def run : List (Env × Ev) → State → State
  | [], s => s
  | (env, ev) :: rest, s => run rest (step env ev s)

/-- Contribution of one event to the count of stylus-classified single-touch
move samples. -/
def evStylusMoves : Env × Ev → Nat
  | (_, .tmove [t]) => if isStylus t = true then 1 else 0
  | _ => 0

/-- Number of stylus-classified single-touch move samples in a trace. -/
def msCount (trace : List (Env × Ev)) : Nat :=
  (trace.map evStylusMoves).sum

end SingleCanvas

namespace DrawingAPI

/-- The dual-pane 2D-context paint settings touched by `applyBrushSettings`. -/
structure BrushCtx where
  compositeOp : String
  strokeStyle : String
  lineWidth : ℚ
  shadowColor : String
  shadowBlur : ℚ
  lineCap : String
  lineJoin : String
deriving DecidableEq, Repr

/-- `applyBrushSettings` (DrawingAPI.js 2134-2151): eraser mode uses
`destination-out` compositing with triple line width and no shadow; pen mode
uses `source-over`, the selected color, the nominal width and a soft shadow
in the color with alpha suffix `4D`. -/
def applyBrushSettings (tool color : String) (lineWidth : ℚ) (ctx : BrushCtx) : BrushCtx :=
  if tool = "eraser" then
    { ctx with
      compositeOp := "destination-out"
      strokeStyle := "rgba(0,0,0,1)"
      lineWidth := lineWidth * 3
      shadowBlur := 0
      lineCap := "round"
      lineJoin := "round" }
  else
    { ctx with
      compositeOp := "source-over"
      strokeStyle := color
      lineWidth := lineWidth
      shadowColor := color ++ "4D"
      shadowBlur := 2
      lineCap := "round"
      lineJoin := "round" }

/-- One RGBA pixel of an ImageData buffer. -/
structure Pixel where
  r : Nat
  g : Nat
  b : Nat
  a : Nat
deriving DecidableEq, Repr

/-- The emptiness check of `saveCanvasData` (DrawingAPI.js 2739-2748): the
loop over every fourth byte of the RGBA array is the check that some pixel
has a non-zero alpha channel. -/
def hasContent (pixels : List Pixel) : Bool :=
  pixels.any (fun p => 0 < p.a)

/-- A canvas as `saveCanvasData` consumes it.  `toDataURL` is a browser
codec primitive, so the model carries its two results as data: `encodedPNG`
is `canvas.toDataURL('image/png')` and `encodedJPEG` is the JPEG encoding of
the white-flattened (and, above 2400px width, downscaled) copy produced by
`compressCanvasData`. -/
structure Canvas where
  width : Nat
  height : Nat
  pixels : List Pixel
  encodedPNG : String
  encodedJPEG : String
deriving DecidableEq, Repr

/-- JavaScript `Math.round`: half-up rounding. -/
def jsRound (q : ℚ) : Int := ⌊q + 1 / 2⌋

/-- The compression metadata attached to a version-2.0 record.
`ratioPercent` is named `compressionRatio` in the source. -/
structure CompressionInfo where
  format : String
  quality : ℚ
  originalSize : Nat
  compressedSize : Nat
  ratioPercent : Int
deriving DecidableEq, Repr

/-- Result object of `compressCanvasData`; `ratioPercent` is named
`compressionRatio` in the source. -/
structure CompressedData where
  dataURL : String
  format : String
  quality : ℚ
  originalSize : Nat
  compressedSize : Nat
  ratioPercent : Int
  scaled : Bool
deriving DecidableEq, Repr

/-- `compressCanvasData` (DrawingAPI.js 2634-2681): JPEG quality 0.7,
compression statistics from the two encoded payload lengths, `scaled` when
the width exceeded the 2400px cap.  The temp-canvas drawing itself is the
codec primitive summarized by `Canvas.encodedJPEG`. -/
def compressCanvasData (canvas : Canvas) : CompressedData :=
  { dataURL := canvas.encodedJPEG
    format := "jpeg"
    quality := 7 / 10
    originalSize := canvas.encodedPNG.length
    compressedSize := canvas.encodedJPEG.length
    ratioPercent :=
      jsRound ((1 - (canvas.encodedJPEG.length : ℚ) / (canvas.encodedPNG.length : ℚ)) * 100)
    scaled := decide (2400 < canvas.width) }

/-- A persisted drawing record (storage format of §6 of the spec). -/
structure DrawingRecord where
  version : String
  lessonId : String
  viewType : String
  timestamp : Nat
  canvasWidth : Nat
  canvasHeight : Nat
  imageData : String
  compressionInfo : Option CompressionInfo
deriving DecidableEq, Repr

/-- The version-2.0 record `saveCanvasData` builds (DrawingAPI.js
2774-2790). -/
def mkDrawingRecord (canvas : Canvas) (lessonId viewType : String) (timestamp : Nat)
    (cd : CompressedData) : DrawingRecord :=
  { version := "2.0"
    lessonId := lessonId
    viewType := viewType
    timestamp := timestamp
    canvasWidth := canvas.width
    canvasHeight := canvas.height
    imageData := cd.dataURL
    compressionInfo := some
      ⟨cd.format, cd.quality, cd.originalSize, cd.compressedSize, cd.ratioPercent⟩ }

/-- The localStorage key scheme (DrawingAPI.js 199, 2752). -/
def storageKey (lessonId viewType : String) : String :=
  "drawing_data_" ++ lessonId ++ "_" ++ viewType

/-- The remote tier, keyed by `(lessonId, viewType)`. -/
abbrev RemoteTier := List ((String × String) × DrawingRecord)

/-- The local tier (localStorage), keyed by the storage-key string. -/
abbrev LocalTier := List (String × DrawingRecord)

def remoteGet (st : RemoteTier) (k : String × String) : Option DrawingRecord :=
  (List.find? (fun e => e.1 = k) st).map (fun e => e.2)

def remoteSet (st : RemoteTier) (k : String × String) (r : DrawingRecord) : RemoteTier :=
  (k, r) :: List.filter (fun e => ¬ e.1 = k) st

def remoteRemove (st : RemoteTier) (k : String × String) : RemoteTier :=
  List.filter (fun e => ¬ e.1 = k) st

def localGet (st : LocalTier) (k : String) : Option DrawingRecord :=
  (List.find? (fun e => e.1 = k) st).map (fun e => e.2)

def localSet (st : LocalTier) (k : String) (r : DrawingRecord) : LocalTier :=
  (k, r) :: List.filter (fun e => ¬ e.1 = k) st

def localRemove (st : LocalTier) (k : String) : LocalTier :=
  List.filter (fun e => ¬ e.1 = k) st

/-- Outcomes of the external effects one `saveCanvasData` call performs:
`saveResp` is `drawingAPI.saveDrawing` (`.error` = network/HTTP failure
thrown, `.ok b` = response with `success = b`), `deleteResp` is
`drawingAPI.deleteDrawing`, and `localSetOk` says whether
`localStorage.setItem` succeeds (`false` = QuotaExceededError thrown). -/
structure SaveNet where
  saveResp : Except Unit Bool
  deleteResp : Except Unit Unit
  localSetOk : Bool
deriving Repr

/-- Result of a `saveCanvasData` call: the returned flag and the two tiers
after the call. -/
structure SaveOutcome where
  success : Bool
  remote : RemoteTier
  localTier : LocalTier
deriving Repr

/-- `saveCanvasData` (DrawingAPI.js 2734-2832).  Empty canvas: best-effort
remote delete (failure logged and swallowed), unconditional local removal,
return success.  Non-empty canvas: build the compressed 2.0 record, try the
remote tier first; a response with `success` mirrors the record to the local
tier; a thrown error or an unsuccessful response falls back to a local-only
write.  A local write that throws QuotaExceededError reaches the outer catch
and returns failure. -/
def saveCanvasData (canvas : Canvas) (lessonId viewType : String) (timestamp : Nat)
    (net : SaveNet) (remote : RemoteTier) (localTier : LocalTier) : SaveOutcome :=
  let key := storageKey lessonId viewType
  if hasContent canvas.pixels = false then
    let remote2 :=
      match net.deleteResp with
      | .ok _ => remoteRemove remote (lessonId, viewType)
      | .error _ => remote
    ⟨true, remote2, localRemove localTier key⟩
  else
    let cd := compressCanvasData canvas
    let record := mkDrawingRecord canvas lessonId viewType timestamp cd
    match net.saveResp with
    | .ok true =>
      let remote2 := remoteSet remote (lessonId, viewType) record
      if net.localSetOk = true then ⟨true, remote2, localSet localTier key record⟩
      else ⟨false, remote2, localTier⟩
    | .ok false =>
      if net.localSetOk = true then ⟨true, remote, localSet localTier key record⟩
      else ⟨false, remote, localTier⟩
    | .error _ =>
      if net.localSetOk = true then ⟨true, remote, localSet localTier key record⟩
      else ⟨false, remote, localTier⟩

/-- Outcomes of the external effects of one `loadCanvasData` call:
`loadResp` is `drawingAPI.getDrawing` (`.ok (some r)` = record, `.ok none` =
HTTP 404 mapped to `null`, `.error` = other network failure thrown) and
`decodeOk` says whether the persisted image payload decodes. -/
structure LoadNet where
  loadResp : Except Unit (Option DrawingRecord)
  decodeOk : Bool
deriving Repr

/-- Result of a `loadCanvasData` call: the returned flag, what was painted
onto the freshly cleared surface (`none` = the surface stays blank), and the
local tier after the call. -/
structure LoadOutcome where
  success : Bool
  painted : Option DrawingRecord
  localTier : LocalTier
deriving Repr

/-- `loadCanvasData` (DrawingAPI.js 2899-3040).  The canvas is cleared
before anything else, so every non-painting exit leaves it blank.  Server
first (a returned record is mirrored to the local cache), local fallback;
a missing record, an unsupported `version`, a `lessonId` or `viewType`
mismatch, or a decode failure all return `false` without painting. -/
def loadCanvasData (lessonId viewType : String) (net : LoadNet)
    (localTier : LocalTier) : LoadOutcome :=
  let key := storageKey lessonId viewType
  let fromServer : Option DrawingRecord × LocalTier :=
    match net.loadResp with
    | .ok (some r) => (some r, localSet localTier key r)
    | _ => (none, localTier)
  let lt := fromServer.2
  let data :=
    match fromServer.1 with
    | some r => some r
    | none => localGet lt key
  match data with
  | none => ⟨false, none, lt⟩
  | some r =>
    if ¬ (r.version = "1.0" ∨ r.version = "2.0") then ⟨false, none, lt⟩
    else if ¬ r.lessonId = lessonId then ⟨false, none, lt⟩
    else if ¬ r.viewType = viewType then ⟨false, none, lt⟩
    else if net.decodeOk = true then ⟨true, some r, lt⟩
    else ⟨false, none, lt⟩

end DrawingAPI

namespace DrawingAPI

/-- The autosave debounce state: `timerDue` is the absolute time (ms) at
which the pending `setTimeout(saveDrawingData, 1000)` callback fires
(`none` = no pending timer, i.e. the handle was cleared or has fired), and
`saveCalls` counts the `saveDrawingData` invocations so far. -/
structure AutoSave where
  timerDue : Option Nat
  saveCalls : Nat
deriving DecidableEq, Repr

/-- Let a pending timer that is due at or before `now` fire: the single-
threaded event loop runs a due `setTimeout` callback before any later
event. -/
def fireDue (now : Nat) (s : AutoSave) : AutoSave :=
  match s.timerDue with
  | some due => if due ≤ now then ⟨none, s.saveCalls + 1⟩ else s
  | none => s

/-- The three operations on the autosave timer, each tagged with the time at
which it runs: `strokeEnd t` is the tail of `stopDrawing` (DrawingAPI.js
2123-2127: `clearTimeout` then re-arm for `t + 1000`); `clearEvt t` is the
`clearTimeout` at the top of `clearDrawing` (2260-2262); `switchView t` is
the `clearTimeout` at the top of `updateViewTypes` (2241-2243). -/
inductive UEvent where
  | strokeEnd (t : Nat)
  | clearEvt (t : Nat)
  | switchView (t : Nat)
deriving DecidableEq, Repr

/-- One timer operation, after letting any due timer fire first. -/
def stepU (s : AutoSave) (e : UEvent) : AutoSave :=
  match e with
  | .strokeEnd t => let s1 := fireDue t s; ⟨some (t + 1000), s1.saveCalls⟩
  | .clearEvt t => let s1 := fireDue t s; ⟨none, s1.saveCalls⟩
  | .switchView t => let s1 := fireDue t s; ⟨none, s1.saveCalls⟩

/-- Process a time-ordered list of timer operations. -/
def runU (s : AutoSave) : List UEvent → AutoSave
  | [] => s
  | e :: rest => runU (stepU s e) rest

/-- The stroke-end events after the first one: each element of `gaps` is the
delay to the next stroke end. -/
def strokeTrail (t0 : Nat) : List Nat → List UEvent
  | [] => []
  | g :: gs => UEvent.strokeEnd (t0 + g) :: strokeTrail (t0 + g) gs

end DrawingAPI

namespace SingleCanvas

/-- Initial context settings of a fresh 2D context. -/
def initialCtx : CtxSettings := ⟨"#000", 1, "butt", "miter", "source-over"⟩

/-- The idle single-canvas state with the config.js defaults (config.js
9-65), drawing mode enabled and a current file selected. -/
def initialState : State :=
  { drawingActive := true
    isDrawing := false
    currentTool := "pen"
    currentColor := "#ef4444"
    currentLineWidth := 4
    lastX := 0
    lastY := 0
    currentStroke := none
    drawingData := []
    currentFileName := "lesson1"
    pending := ⟨false, 0, 0, 0, 0, false, 0, 0⟩
    longPress := ⟨0, 0, false, false, false⟩
    ctxPoint := none
    ctxSettings := initialCtx
    surface := []
    storage := [] }

/-- A fixed sample layout: the pane is scrolled to 100, the canvas and the
content wrapper both start at the viewport origin. -/
def sampleEnv : Env := ⟨100, 0, 0, 0, 1000, 0, 1000⟩

/-- A stylus-classified touch sample at the given viewport position. -/
def stylusTouchAt (x y : Int) : Touch := ⟨some "stylus", none, none, x, y⟩

/-- A finger (direct) touch sample at the given viewport position. -/
def fingerTouchAt (x y : Int) : Touch := ⟨some "direct", none, none, x, y⟩

/-- A gesture consisting of a stylus contact followed by only two
stylus-classified move samples. -/
def twoMoveTrace : List (Env × Ev) :=
  [(sampleEnv, .tstart [stylusTouchAt 100 100]),
   (sampleEnv, .tmove [stylusTouchAt 110 110]),
   (sampleEnv, .tmove [stylusTouchAt 120 120])]

/-- The state reached after the contact and the first confirming move of
`twoMoveTrace`: pending confirmation with `confirmCount = 2`. -/
def onePendingMoveState : State :=
  run [(sampleEnv, .tstart [stylusTouchAt 100 100]),
       (sampleEnv, .tmove [stylusTouchAt 110 110])] initialState

end SingleCanvas

namespace DrawingAPI

/-- A sample version-2.0 record for the key `("L2-01", "notebook")`. -/
def sampleRecord : DrawingRecord :=
  ⟨"2.0", "L2-01", "notebook", 1, 200, 200, "data", some ⟨"jpeg", 7 / 10, 10, 5, 50⟩⟩

/-- A sample version-1.0 record (uncompressed, no compression metadata). -/
def sampleRecordV1 : DrawingRecord :=
  ⟨"1.0", "L2-01", "notebook", 1, 200, 200, "data", none⟩

/-- A sample record with an unsupported version. -/
def sampleRecordV3 : DrawingRecord :=
  ⟨"3.0", "L2-01", "notebook", 1, 200, 200, "data", none⟩

/-- A 200x200 canvas whose only pixel row is fully transparent: empty in the
sense of the alpha-channel check. -/
def emptyCanvas : Canvas := ⟨200, 200, [⟨0, 0, 0, 0⟩], "png64", "jpg64"⟩

/-- A 200x200 canvas with an opaque red pixel: non-empty. -/
def inkedCanvas : Canvas := ⟨200, 200, [⟨239, 68, 68, 255⟩], "png64", "jpg64"⟩

end DrawingAPI

/-- Claim C2, counterexample.  The claim: the stylus classifier `isStylus`
returns `true` when the platform reports no explicit pointer/touch type and
no usable contact-radius signal.  The `isStylus` of the single-canvas
variant (touch-handler.js 11-29), one of the two implementations the claim
covers, returns `false` on exactly such a sample. -/
theorem c2_counterexample :
    SingleCanvas.isStylus ⟨none, none, none, 0, 0⟩ = false := by
  decide

/-- Claim C2, amended.  The dual-pane classifier `DrawingAPI.isStylus` is a
pure function of the sample with the claimed behavior: with no explicit
touch type and no radius signal it returns `true`; with only a radius
signal, average radius < 8 implies stylus and average radius > 15 implies
not-stylus.  The single-canvas classifier `SingleCanvas.isStylus` (which
additionally updates the debug panel) is instead strict: any sample whose
`touchType` is not `'stylus'` — including the no-signal case — yields
`false`, regardless of radius. -/
theorem c2_classifier_defaults :
    (∀ t : Touch, t.touchType = none → (t.radiusX = none ∨ t.radiusY = none) →
      DrawingAPI.isStylus t = true) ∧
    (∀ (t : Touch) (rx ry : ℚ), t.touchType = none → t.radiusX = some rx →
      t.radiusY = some ry → (rx + ry) / 2 < 8 → DrawingAPI.isStylus t = true) ∧
    (∀ (t : Touch) (rx ry : ℚ), t.touchType = none → t.radiusX = some rx →
      t.radiusY = some ry → 15 < (rx + ry) / 2 → DrawingAPI.isStylus t = false) ∧
    (∀ t : Touch, ¬ t.touchType = some "stylus" → SingleCanvas.isStylus t = false) := by
  refine ⟨?_, ?_, ?_, ?_⟩
  · intro t ht hr
    unfold DrawingAPI.isStylus
    rw [ht]
    rcases hr with h | h
    · rw [h]
      cases t.radiusY <;> rfl
    · rw [h]
      cases t.radiusX <;> rfl
  · intro t rx ry ht hx hy hlt
    simp only [DrawingAPI.isStylus, ht, Option.isSome_none, Bool.false_eq_true, if_false,
      hx, hy]
    simp [hlt]
  · intro t rx ry ht hx hy hgt
    simp only [DrawingAPI.isStylus, ht, Option.isSome_none, Bool.false_eq_true, if_false,
      hx, hy]
    rw [if_neg (by linarith), if_pos hgt]
  · intro t ht
    simp only [SingleCanvas.isStylus, if_neg ht]
    split <;> rfl

/-- Claim C2, witness: the amended classifier contract evaluated on four
concrete samples (no signal; small radius; large radius; and the strict
single-canvas classifier on a typeless sample). -/
theorem c2_witness :
    DrawingAPI.isStylus ⟨none, none, none, 0, 0⟩ = true ∧
    DrawingAPI.isStylus ⟨none, some 5, some 6, 0, 0⟩ = true ∧
    DrawingAPI.isStylus ⟨none, some 20, some 20, 0, 0⟩ = false ∧
    SingleCanvas.isStylus ⟨none, none, none, 0, 0⟩ = false :=
  ⟨c2_classifier_defaults.1 ⟨none, none, none, 0, 0⟩ rfl (Or.inl rfl),
   c2_classifier_defaults.2.1 ⟨none, some 5, some 6, 0, 0⟩ 5 6 rfl rfl rfl (by norm_num),
   c2_classifier_defaults.2.2.1 ⟨none, some 20, some 20, 0, 0⟩ 20 20 rfl rfl rfl
     (by norm_num),
   c2_classifier_defaults.2.2.2 ⟨none, none, none, 0, 0⟩ (by simp)⟩

/-- Claim C7: for every pen line width `w`, eraser mode uses
`destination-out` compositing with an effective line width of exactly `3·w`,
both in the dual-pane variant (`applyBrushSettings`, DrawingAPI.js
2134-2151) and in the single-canvas variant (the context assignment of
`draw`, drawing.js 40-44, shared with the touchmove confirmation block). -/
theorem c7_eraser_width :
    ∀ (w : ℚ) (color : String) (ctx : DrawingAPI.BrushCtx),
      (DrawingAPI.applyBrushSettings "eraser" color w ctx).compositeOp =
          "destination-out" ∧
      (DrawingAPI.applyBrushSettings "eraser" color w ctx).lineWidth = 3 * w ∧
      (SingleCanvas.strokeCtxSettings "eraser" color w).compositeOp =
          "destination-out" ∧
      (SingleCanvas.strokeCtxSettings "eraser" color w).lineWidth = 3 * w := by
  intro w color ctx
  refine ⟨?_, ?_, ?_, ?_⟩ <;>
    simp [DrawingAPI.applyBrushSettings, SingleCanvas.strokeCtxSettings, mul_comm]

namespace SingleCanvas

/-- Painting a segment never changes the recorded stroke. -/
theorem ctxLineToStroke_currentStroke (p : Point) (s : State) :
    (ctxLineToStroke p s).currentStroke = s.currentStroke := by
  unfold ctxLineToStroke
  split <;> rfl

/-- Persisting never changes the stroke log itself. -/
theorem saveDrawingToStorage_drawingData (s : State) :
    (saveDrawingToStorage s).drawingData = s.drawingData := by
  unfold saveDrawingToStorage
  split <;> rfl

/-- What `stopDrawing` does to the stroke log: either nothing, or it appends
the current stroke, and only when that stroke has more than one point. -/
theorem stopDrawing_drawingData (s : State) :
    (stopDrawing s).drawingData = s.drawingData ∨
    ∃ cs, s.currentStroke = some cs ∧ 1 < cs.points.length ∧
      (stopDrawing s).drawingData = s.drawingData ++ [cs] := by
  unfold stopDrawing
  split
  · exact Or.inl rfl
  · cases hcs : s.currentStroke with
    | none => simp [hcs]
    | some cs =>
      simp only [hcs]
      split
      · rename_i hlen
        refine Or.inr ⟨cs, rfl, hlen, ?_⟩
        simp [saveDrawingToStorage_drawingData]
      · exact Or.inl rfl

/-- `stopDrawing` leaves the persisted storage unchanged unless the sealed
stroke has more than one point. -/
theorem stopDrawing_storage (s : State)
    (h : s.currentStroke = none ∨ ∃ cs, s.currentStroke = some cs ∧ ¬ 1 < cs.points.length) :
    (stopDrawing s).storage = s.storage := by
  unfold stopDrawing
  split
  · rfl
  · rcases h with hn | ⟨cs, hcs, hlen⟩
    · simp [hn]
    · simp only [hcs]
      rw [if_neg hlen]

/-- `stopDrawing` never paints. -/
theorem stopDrawing_surface (s : State) : (stopDrawing s).surface = s.surface := by
  unfold stopDrawing saveDrawingToStorage
  split
  · rfl
  · dsimp only
    split
    · split
      · split <;> rfl
      · rfl
    · rfl

end SingleCanvas

/-- Claim C9: in the single-canvas vector variant, every recorded stroke
point stores `y` as the screen y-coordinate plus the pane's scrollTop at
capture time (`startDrawing`, drawing.js 9-25, and `draw`, drawing.js
28-52), and replay maps a stored point through `y - currentScrollTop`
(`redrawCanvas`, drawing.js 84-88); hence a point captured at scroll `s1`
and replayed at scroll `s2` lands at `(capturedScreenY + s1) - s2`, and
replaying at the capture offset reproduces the original screen position. -/
theorem c9_scroll_compensation :
    ∀ (e : SingleCanvas.MouseEv) (env : SingleCanvas.Env) (s : SingleCanvas.State)
      (s2 : Int),
      s.drawingActive = true →
      ((SingleCanvas.startDrawing e env s).currentStroke =
        some ⟨s.currentTool, s.currentColor, s.currentLineWidth,
          [⟨e.clientX - env.canvasLeft, (e.clientY - env.canvasTop) + env.scrollTop⟩]⟩) ∧
      (∀ cs : SingleCanvas.Stroke, s.isDrawing = true → s.currentStroke = some cs →
        (SingleCanvas.draw e env s).currentStroke =
          some { cs with points := cs.points ++
            [⟨e.clientX - env.canvasLeft, (e.clientY - env.canvasTop) + env.scrollTop⟩] }) ∧
      (SingleCanvas.replayScreenPoint
          ⟨e.clientX - env.canvasLeft, (e.clientY - env.canvasTop) + env.scrollTop⟩ s2 =
        ⟨e.clientX - env.canvasLeft, ((e.clientY - env.canvasTop) + env.scrollTop) - s2⟩) ∧
      (SingleCanvas.replayScreenPoint
          ⟨e.clientX - env.canvasLeft, (e.clientY - env.canvasTop) + env.scrollTop⟩
          env.scrollTop =
        ⟨e.clientX - env.canvasLeft, e.clientY - env.canvasTop⟩) := by
  intro e env s s2 hact
  refine ⟨?_, ?_, ?_, ?_⟩
  · simp [SingleCanvas.startDrawing, hact]
  · intro cs hdraw hcs
    simp [SingleCanvas.draw, hdraw, hact, hcs, SingleCanvas.ctxLineToStroke_currentStroke]
  · simp [SingleCanvas.replayScreenPoint]
  · simp [SingleCanvas.replayScreenPoint]

/-- Claim C9, witness: a mouse contact at viewport (30, 40) with the pane
scrolled to 100 records the point (30, 140), and replaying it at the same
scroll offset reproduces the screen position (30, 40). -/
theorem c9_witness :
    (SingleCanvas.startDrawing ⟨30, 40⟩ SingleCanvas.sampleEnv
        SingleCanvas.initialState).currentStroke =
      some ⟨"pen", "#ef4444", 4, [⟨30, 140⟩]⟩ ∧
    SingleCanvas.replayScreenPoint ⟨30, 140⟩ 100 = ⟨30, 40⟩ := by
  have h := c9_scroll_compensation ⟨30, 40⟩ SingleCanvas.sampleEnv
    SingleCanvas.initialState 7 rfl
  refine ⟨?_, ?_⟩
  · have h1 := h.1
    simpa [SingleCanvas.initialState, SingleCanvas.sampleEnv, SingleCanvas.initialCtx]
      using h1
  · have h4 := h.2.2.2
    simpa [SingleCanvas.sampleEnv] using h4

/-- Claim C10: in the single-canvas variant, `stopDrawing` (drawing.js
55-64) preserves the invariant that every stroke in the log has at least two
points, and a gesture whose current stroke has fewer than two recorded
points is discarded without touching the log or the persisted storage. -/
theorem c10_min_stroke_points :
    (∀ s : SingleCanvas.State,
        (∀ st ∈ s.drawingData, 2 ≤ st.points.length) →
        ∀ st ∈ (SingleCanvas.stopDrawing s).drawingData, 2 ≤ st.points.length) ∧
    (∀ s : SingleCanvas.State,
        (s.currentStroke = none ∨
          ∃ cs, s.currentStroke = some cs ∧ cs.points.length < 2) →
        (SingleCanvas.stopDrawing s).drawingData = s.drawingData ∧
        (SingleCanvas.stopDrawing s).storage = s.storage) := by
  constructor
  · intro s hinv st hst
    rcases SingleCanvas.stopDrawing_drawingData s with h | ⟨cs, _, hlen, h⟩
    · rw [h] at hst
      exact hinv st hst
    · rw [h] at hst
      rcases List.mem_append.1 hst with hmem | hmem
      · exact hinv st hmem
      · rw [List.mem_singleton.1 hmem]
        omega
  · intro s h
    have h' : s.currentStroke = none ∨
        ∃ cs, s.currentStroke = some cs ∧ ¬ 1 < cs.points.length := by
      rcases h with hn | ⟨cs, hcs, hlen⟩
      · exact Or.inl hn
      · exact Or.inr ⟨cs, hcs, by omega⟩
    refine ⟨?_, SingleCanvas.stopDrawing_storage s h'⟩
    rcases SingleCanvas.stopDrawing_drawingData s with hd | ⟨cs, hcs, hlen, _⟩
    · exact hd
    · rcases h' with hn | ⟨cs', hcs', hlen'⟩
      · rw [hn] at hcs; cases hcs
      · rw [hcs'] at hcs
        cases hcs
        omega

/-- Claim C10, witness: sealing a gesture whose stroke holds the single
point (100, 200) leaves the stroke log and the storage unchanged. -/
theorem c10_witness :
    (SingleCanvas.stopDrawing { SingleCanvas.initialState with
        isDrawing := true
        currentStroke := some ⟨"pen", "#ef4444", 4, [⟨100, 200⟩]⟩ }).drawingData = [] ∧
    (SingleCanvas.stopDrawing { SingleCanvas.initialState with
        isDrawing := true
        currentStroke := some ⟨"pen", "#ef4444", 4, [⟨100, 200⟩]⟩ }).storage = [] :=
  c10_min_stroke_points.2
    { SingleCanvas.initialState with
        isDrawing := true
        currentStroke := some ⟨"pen", "#ef4444", 4, [⟨100, 200⟩]⟩ }
    (Or.inr ⟨⟨"pen", "#ef4444", 4, [⟨100, 200⟩]⟩, rfl, by decide⟩)

namespace DrawingAPI

/-- Reading back the key just written to the local tier yields the written
record. -/
theorem localGet_localSet_self (st : LocalTier) (k : String) (r : DrawingRecord) :
    localGet (localSet st k r) k = some r := by
  simp [localGet, localSet]

/-- Reading back the key just written to the remote tier yields the written
record. -/
theorem remoteGet_remoteSet_self (st : RemoteTier) (k : String × String)
    (r : DrawingRecord) : remoteGet (remoteSet st k r) k = some r := by
  simp [remoteGet, remoteSet]

/-- A key removed from the local tier is absent. -/
theorem localGet_localRemove_self (st : LocalTier) (k : String) :
    localGet (localRemove st k) k = none := by
  unfold localGet localRemove
  induction st with
  | nil => rfl
  | cons e rest ih =>
    by_cases h : e.1 = k
    · simp only [List.filter_cons, h]
      simpa using ih
    · simp only [List.filter_cons, h]
      simpa [List.find?_cons, h] using ih

/-- A key removed from the remote tier is absent. -/
theorem remoteGet_remoteRemove_self (st : RemoteTier) (k : String × String) :
    remoteGet (remoteRemove st k) k = none := by
  unfold remoteGet remoteRemove
  induction st with
  | nil => rfl
  | cons e rest ih =>
    by_cases h : e.1 = k
    · simp only [List.filter_cons, h]
      simpa using ih
    · simp only [List.filter_cons, h]
      simpa [List.find?_cons, h] using ih

end DrawingAPI

/-- Claim C3: `saveCanvasData` (DrawingAPI.js 2792-2831) for a non-empty
surface attempts the remote tier first; on a thrown network/HTTP failure it
falls back to writing only the local tier and still returns success exactly
when the local write succeeds; and on a successful remote write the same
record is also mirrored to the local tier. -/
theorem c3_save_fallback_and_mirror :
    ∀ (canvas : DrawingAPI.Canvas) (lid vt : String) (ts : Nat)
      (net : DrawingAPI.SaveNet) (remote : DrawingAPI.RemoteTier)
      (lt : DrawingAPI.LocalTier),
      DrawingAPI.hasContent canvas.pixels = true →
      (net.saveResp = Except.error () → net.localSetOk = true →
        (DrawingAPI.saveCanvasData canvas lid vt ts net remote lt).success = true ∧
        (DrawingAPI.saveCanvasData canvas lid vt ts net remote lt).remote = remote ∧
        DrawingAPI.localGet
            (DrawingAPI.saveCanvasData canvas lid vt ts net remote lt).localTier
            (DrawingAPI.storageKey lid vt) =
          some (DrawingAPI.mkDrawingRecord canvas lid vt ts
            (DrawingAPI.compressCanvasData canvas))) ∧
      (net.saveResp = Except.error () → net.localSetOk = false →
        (DrawingAPI.saveCanvasData canvas lid vt ts net remote lt).success = false) ∧
      (net.saveResp = Except.ok true → net.localSetOk = true →
        (DrawingAPI.saveCanvasData canvas lid vt ts net remote lt).success = true ∧
        DrawingAPI.remoteGet
            (DrawingAPI.saveCanvasData canvas lid vt ts net remote lt).remote (lid, vt) =
          some (DrawingAPI.mkDrawingRecord canvas lid vt ts
            (DrawingAPI.compressCanvasData canvas)) ∧
        DrawingAPI.localGet
            (DrawingAPI.saveCanvasData canvas lid vt ts net remote lt).localTier
            (DrawingAPI.storageKey lid vt) =
          some (DrawingAPI.mkDrawingRecord canvas lid vt ts
            (DrawingAPI.compressCanvasData canvas))) := by
  intro canvas lid vt ts net remote lt hc
  refine ⟨?_, ?_, ?_⟩
  · intro hresp hok
    simp [DrawingAPI.saveCanvasData, hc, hresp, hok, DrawingAPI.localGet_localSet_self]
  · intro hresp hok
    simp [DrawingAPI.saveCanvasData, hc, hresp, hok]
  · intro hresp hok
    simp [DrawingAPI.saveCanvasData, hc, hresp, hok, DrawingAPI.localGet_localSet_self,
      DrawingAPI.remoteGet_remoteSet_self]

/-- Claim C3, witness: saving a non-empty 200x200 canvas with the server
throwing still succeeds and lands the record in the local tier with the
remote tier untouched; with the server accepting, the same record is read
back from both tiers. -/
theorem c3_witness :
    ((DrawingAPI.saveCanvasData DrawingAPI.inkedCanvas "L2-01" "notebook" 5
        ⟨Except.error (), Except.ok (), true⟩ [] []).success = true ∧
      (DrawingAPI.saveCanvasData DrawingAPI.inkedCanvas "L2-01" "notebook" 5
        ⟨Except.error (), Except.ok (), true⟩ [] []).remote = [] ∧
      DrawingAPI.localGet
          (DrawingAPI.saveCanvasData DrawingAPI.inkedCanvas "L2-01" "notebook" 5
            ⟨Except.error (), Except.ok (), true⟩ [] []).localTier
          (DrawingAPI.storageKey "L2-01" "notebook") =
        some (DrawingAPI.mkDrawingRecord DrawingAPI.inkedCanvas "L2-01" "notebook" 5
          (DrawingAPI.compressCanvasData DrawingAPI.inkedCanvas))) ∧
    ((DrawingAPI.saveCanvasData DrawingAPI.inkedCanvas "L2-01" "notebook" 5
        ⟨Except.ok true, Except.ok (), true⟩ [] []).success = true ∧
      DrawingAPI.remoteGet
          (DrawingAPI.saveCanvasData DrawingAPI.inkedCanvas "L2-01" "notebook" 5
            ⟨Except.ok true, Except.ok (), true⟩ [] []).remote ("L2-01", "notebook") =
        some (DrawingAPI.mkDrawingRecord DrawingAPI.inkedCanvas "L2-01" "notebook" 5
          (DrawingAPI.compressCanvasData DrawingAPI.inkedCanvas)) ∧
      DrawingAPI.localGet
          (DrawingAPI.saveCanvasData DrawingAPI.inkedCanvas "L2-01" "notebook" 5
            ⟨Except.ok true, Except.ok (), true⟩ [] []).localTier
          (DrawingAPI.storageKey "L2-01" "notebook") =
        some (DrawingAPI.mkDrawingRecord DrawingAPI.inkedCanvas "L2-01" "notebook" 5
          (DrawingAPI.compressCanvasData DrawingAPI.inkedCanvas))) :=
  ⟨(c3_save_fallback_and_mirror DrawingAPI.inkedCanvas "L2-01" "notebook" 5
      ⟨Except.error (), Except.ok (), true⟩ [] [] (by decide)).1 rfl rfl,
   (c3_save_fallback_and_mirror DrawingAPI.inkedCanvas "L2-01" "notebook" 5
      ⟨Except.ok true, Except.ok (), true⟩ [] [] (by decide)).2.2 rfl rfl⟩

/-- Claim C4, counterexample.  The claim: saving an empty surface for a key
that previously had a record leaves the key absent from both tiers.  When
the remote delete throws (server unreachable), `saveCanvasData`
(DrawingAPI.js 2757-2768) swallows the failure, removes only the local
record and still returns success — the remote tier keeps the old record. -/
theorem c4_counterexample :
    (DrawingAPI.saveCanvasData DrawingAPI.emptyCanvas "L2-01" "notebook" 5
        ⟨Except.ok true, Except.error (), true⟩
        [(("L2-01", "notebook"), DrawingAPI.sampleRecord)] []).success = true ∧
    DrawingAPI.remoteGet
        (DrawingAPI.saveCanvasData DrawingAPI.emptyCanvas "L2-01" "notebook" 5
          ⟨Except.ok true, Except.error (), true⟩
          [(("L2-01", "notebook"), DrawingAPI.sampleRecord)] []).remote
        ("L2-01", "notebook") = some DrawingAPI.sampleRecord :=
  ⟨rfl, rfl⟩

/-- Claim C4, amended: saving an empty surface (no pixel with non-zero
alpha) always removes the key from the local tier and returns success, and
removes it from the remote tier whenever the remote delete call succeeds;
when the remote delete throws, the failure is swallowed and the remote
record survives. -/
theorem c4_empty_save_deletes :
    ∀ (canvas : DrawingAPI.Canvas) (lid vt : String) (ts : Nat)
      (net : DrawingAPI.SaveNet) (remote : DrawingAPI.RemoteTier)
      (lt : DrawingAPI.LocalTier),
      DrawingAPI.hasContent canvas.pixels = false →
      (DrawingAPI.saveCanvasData canvas lid vt ts net remote lt).success = true ∧
      DrawingAPI.localGet
          (DrawingAPI.saveCanvasData canvas lid vt ts net remote lt).localTier
          (DrawingAPI.storageKey lid vt) = none ∧
      (∀ u : Unit, net.deleteResp = Except.ok u →
        DrawingAPI.remoteGet
            (DrawingAPI.saveCanvasData canvas lid vt ts net remote lt).remote
            (lid, vt) = none) := by
  intro canvas lid vt ts net remote lt hc
  refine ⟨?_, ?_, ?_⟩
  · simp [DrawingAPI.saveCanvasData, hc]
  · simp [DrawingAPI.saveCanvasData, hc, DrawingAPI.localGet_localRemove_self]
  · intro u hdel
    simp [DrawingAPI.saveCanvasData, hc, hdel, DrawingAPI.remoteGet_remoteRemove_self]

/-- Claim C4, witness: with the remote delete succeeding, saving the empty
canvas over an existing record leaves the key absent from both tiers and
reports success. -/
theorem c4_witness :
    (DrawingAPI.saveCanvasData DrawingAPI.emptyCanvas "L2-01" "notebook" 5
        ⟨Except.ok true, Except.ok (), true⟩
        [(("L2-01", "notebook"), DrawingAPI.sampleRecord)]
        [(DrawingAPI.storageKey "L2-01" "notebook", DrawingAPI.sampleRecord)]).success =
      true ∧
    DrawingAPI.localGet
        (DrawingAPI.saveCanvasData DrawingAPI.emptyCanvas "L2-01" "notebook" 5
          ⟨Except.ok true, Except.ok (), true⟩
          [(("L2-01", "notebook"), DrawingAPI.sampleRecord)]
          [(DrawingAPI.storageKey "L2-01" "notebook", DrawingAPI.sampleRecord)]).localTier
        (DrawingAPI.storageKey "L2-01" "notebook") = none ∧
    DrawingAPI.remoteGet
        (DrawingAPI.saveCanvasData DrawingAPI.emptyCanvas "L2-01" "notebook" 5
          ⟨Except.ok true, Except.ok (), true⟩
          [(("L2-01", "notebook"), DrawingAPI.sampleRecord)]
          [(DrawingAPI.storageKey "L2-01" "notebook", DrawingAPI.sampleRecord)]).remote
        ("L2-01", "notebook") = none := by
  have h := c4_empty_save_deletes DrawingAPI.emptyCanvas "L2-01" "notebook" 5
    ⟨Except.ok true, Except.ok (), true⟩
    [(("L2-01", "notebook"), DrawingAPI.sampleRecord)]
    [(DrawingAPI.storageKey "L2-01" "notebook", DrawingAPI.sampleRecord)] (by decide)
  exact ⟨h.1, h.2.1, h.2.2 () rfl⟩

/-- Claim C5: on load (`loadCanvasData`, DrawingAPI.js 2947-2970), a record
whose version is outside the supported set `{"1.0", "2.0"}`, or whose
`lessonId` or `viewType` does not match the requested key, is treated as no
data — nothing is painted and the surface stays blank, whether the record
came from the server or from the local tier; and a matching version-1.0
record, like a version-2.0 one, is still painted. -/
theorem c5_load_validation :
    ∀ (lid vt : String) (lt : DrawingAPI.LocalTier) (r : DrawingAPI.DrawingRecord)
      (dOk : Bool),
      ((¬ (r.version = "1.0" ∨ r.version = "2.0") ∨ ¬ r.lessonId = lid ∨
          ¬ r.viewType = vt) →
        (DrawingAPI.loadCanvasData lid vt ⟨Except.ok (some r), dOk⟩ lt).painted = none ∧
        (DrawingAPI.loadCanvasData lid vt ⟨Except.error (), dOk⟩
          (DrawingAPI.localSet lt (DrawingAPI.storageKey lid vt) r)).painted = none) ∧
      ((r.version = "1.0" ∨ r.version = "2.0") → r.lessonId = lid → r.viewType = vt →
        (DrawingAPI.loadCanvasData lid vt ⟨Except.error (), true⟩
          (DrawingAPI.localSet lt (DrawingAPI.storageKey lid vt) r)).painted = some r ∧
        (DrawingAPI.loadCanvasData lid vt ⟨Except.error (), true⟩
          (DrawingAPI.localSet lt (DrawingAPI.storageKey lid vt) r)).success = true) := by
  intro lid vt lt r dOk
  constructor
  · intro hbad
    constructor
    · rcases hbad with hv | hl | hw
      · simp [DrawingAPI.loadCanvasData, hv]
      · simp [DrawingAPI.loadCanvasData, hl]
      · simp [DrawingAPI.loadCanvasData, hw]
    · rcases hbad with hv | hl | hw
      · simp [DrawingAPI.loadCanvasData, DrawingAPI.localGet_localSet_self, hv]
      · simp [DrawingAPI.loadCanvasData, DrawingAPI.localGet_localSet_self, hl]
      · simp [DrawingAPI.loadCanvasData, DrawingAPI.localGet_localSet_self, hw]
  · intro hv hl hw
    constructor
    · simp [DrawingAPI.loadCanvasData, DrawingAPI.localGet_localSet_self, hv, hl, hw]
    · simp [DrawingAPI.loadCanvasData, DrawingAPI.localGet_localSet_self, hv, hl, hw]

/-- Claim C5, witness: a version-3.0 record served by the remote tier paints
nothing, while the version-1.0 record (no compression metadata) cached in
the local tier is painted for its own key. -/
theorem c5_witness :
    (DrawingAPI.loadCanvasData "L2-01" "notebook"
        ⟨Except.ok (some DrawingAPI.sampleRecordV3), true⟩ []).painted = none ∧
    (DrawingAPI.loadCanvasData "L2-01" "notebook" ⟨Except.error (), true⟩
        (DrawingAPI.localSet [] (DrawingAPI.storageKey "L2-01" "notebook")
          DrawingAPI.sampleRecordV1)).painted = some DrawingAPI.sampleRecordV1 ∧
    (DrawingAPI.loadCanvasData "L2-01" "notebook" ⟨Except.error (), true⟩
        (DrawingAPI.localSet [] (DrawingAPI.storageKey "L2-01" "notebook")
          DrawingAPI.sampleRecordV1)).success = true := by
  have h3 := (c5_load_validation "L2-01" "notebook" [] DrawingAPI.sampleRecordV3 true).1
    (Or.inl (by decide))
  have h1 := (c5_load_validation "L2-01" "notebook" [] DrawingAPI.sampleRecordV1 true).2
    (Or.inl rfl) rfl rfl
  exact ⟨h3.1, h1.1, h1.2⟩

namespace DrawingAPI

/-- While consecutive stroke ends arrive strictly less than 1000ms apart,
the pending debounced save never fires; it is only pushed out, ending due
1000ms after the last stroke. -/
theorem runU_strokeTrail (gaps : List Nat) :
    ∀ (t c : Nat), (∀ g ∈ gaps, g < 1000) →
      runU ⟨some (t + 1000), c⟩ (strokeTrail t gaps) =
        ⟨some (t + gaps.sum + 1000), c⟩ := by
  induction gaps with
  | nil =>
    intro t c _
    simp [strokeTrail, runU]
  | cons g gs ih =>
    intro t c h
    have hg : g < 1000 := h g (List.mem_cons_self g gs)
    simp only [strokeTrail, runU, stepU, fireDue]
    rw [if_neg (by omega)]
    rw [List.sum_cons]
    have h2 : t + (g + gs.sum) + 1000 = t + g + gs.sum + 1000 := by omega
    rw [h2]
    exact ih (t + g) c (fun x hx => h x (List.mem_cons_of_mem g hx))

end DrawingAPI

/-- Claim C6: the autosave scheduled at the end of a stroke (`stopDrawing`,
DrawingAPI.js 2123-2127) is a trailing 1000ms debounce — N stroke ends each
within less than 1000ms of the previous one produce exactly one
`saveDrawingData` call — and the pending debounced save is cancelled at the
top of `clearDrawing` (2260-2262) and of `updateViewTypes` (2241-2243), so
no save fires after those operations. -/
theorem c6_debounce :
    (∀ (t0 : Nat) (gaps : List Nat) (T : Nat), (∀ g ∈ gaps, g < 1000) →
        t0 + gaps.sum + 1000 ≤ T →
        (DrawingAPI.fireDue T (DrawingAPI.runU ⟨none, 0⟩
          (DrawingAPI.UEvent.strokeEnd t0 ::
            DrawingAPI.strokeTrail t0 gaps))).saveCalls = 1) ∧
    (∀ (s : DrawingAPI.AutoSave) (t T : Nat),
        (DrawingAPI.stepU s (DrawingAPI.UEvent.clearEvt t)).timerDue = none ∧
        (DrawingAPI.stepU s (DrawingAPI.UEvent.switchView t)).timerDue = none ∧
        (DrawingAPI.fireDue T
            (DrawingAPI.stepU s (DrawingAPI.UEvent.clearEvt t))).saveCalls =
          (DrawingAPI.stepU s (DrawingAPI.UEvent.clearEvt t)).saveCalls ∧
        (DrawingAPI.fireDue T
            (DrawingAPI.stepU s (DrawingAPI.UEvent.switchView t))).saveCalls =
          (DrawingAPI.stepU s (DrawingAPI.UEvent.switchView t)).saveCalls) := by
  constructor
  · intro t0 gaps T hgaps hT
    have h0 : DrawingAPI.runU ⟨none, 0⟩
        (DrawingAPI.UEvent.strokeEnd t0 :: DrawingAPI.strokeTrail t0 gaps) =
        ⟨some (t0 + gaps.sum + 1000), 0⟩ := by
      simp only [DrawingAPI.runU, DrawingAPI.stepU, DrawingAPI.fireDue]
      exact DrawingAPI.runU_strokeTrail gaps t0 0 hgaps
    rw [h0]
    simp [DrawingAPI.fireDue, hT]
  · intro s t T
    refine ⟨rfl, rfl, rfl, rfl⟩

/-- Claim C6, witness: three strokes ending at 0, 500 and 1499 (gaps 500 and
999, both inside the window) produce exactly one save once time passes 2499;
and a clear at time 400 with a save pending for 900 leaves no pending
timer. -/
theorem c6_witness :
    (DrawingAPI.fireDue 3000 (DrawingAPI.runU ⟨none, 0⟩
      (DrawingAPI.UEvent.strokeEnd 0 ::
        DrawingAPI.strokeTrail 0 [500, 999]))).saveCalls = 1 ∧
    (DrawingAPI.stepU ⟨some 900, 0⟩ (DrawingAPI.UEvent.clearEvt 400)).timerDue = none :=
  ⟨c6_debounce.1 0 [500, 999] 3000 (by decide) (by decide),
   (c6_debounce.2 ⟨some 900, 0⟩ 400 0).1⟩

namespace SingleCanvas

/-- `stopDrawing` is a no-op when no stroke is being drawn. -/
theorem stopDrawing_of_not_drawing (s : State) (h : s.isDrawing = false) :
    stopDrawing s = s := by
  unfold stopDrawing
  rw [if_pos h]

/-- `checkLongPressMovement` only touches the long-press record. -/
theorem checkLongPressMovement_eq (x y : Int) (s : State) :
    ∃ lp, checkLongPressMovement x y s = { s with longPress := lp } := by
  unfold checkLongPressMovement
  split
  · exact ⟨_, rfl⟩
  · exact ⟨s.longPress, rfl⟩

/-- A `touchstart` from a quiet state (nothing being drawn, no current
stroke): the surface is untouched, the state stays quiet, and a pending
stroke is either carried over or restarted with `confirmCount = 1`. -/
theorem touchstart_quiet (env : Env) (ts : List Touch) (s : State) (k : Nat)
    (hd : s.isDrawing = false) (hcs : s.currentStroke = none)
    (hp : s.pending.active = true →
      s.pending.confirmed = false ∧ s.pending.confirmCount + k ≤ 2)
    (hk : k ≤ 1) :
    (touchstart env ts s).surface = s.surface ∧
    (touchstart env ts s).isDrawing = false ∧
    (touchstart env ts s).currentStroke = none ∧
    ((touchstart env ts s).pending.active = true →
      (touchstart env ts s).pending.confirmed = false ∧
      (touchstart env ts s).pending.confirmCount + k ≤ 2) := by
  unfold touchstart
  split
  · exact ⟨rfl, hd, hcs, hp⟩
  split
  · exact ⟨rfl, hd, hcs, hp⟩
  split
  · split
    · unfold startLongPressDetection
      split
      · exact ⟨rfl, hd, hcs, hp⟩
      · refine ⟨rfl, hd, hcs, fun _ => ⟨rfl, ?_⟩⟩
        show 1 + k ≤ 2
        omega
    · refine ⟨rfl, hd, hcs, fun h => ?_⟩
      simp [resetPending] at h
  · exact ⟨rfl, hd, hcs, hp⟩

/-- A `touchmove` from a quiet state never paints, keeps the state quiet,
and grows the confirmation counter by at most the one stylus sample the
event may contribute. -/
theorem touchmove_quiet (env : Env) (ts : List Touch) (s : State) (k : Nat)
    (hd : s.isDrawing = false) (hcs : s.currentStroke = none)
    (hp : s.pending.active = true →
      s.pending.confirmed = false ∧
      s.pending.confirmCount + (k + evStylusMoves (env, Ev.tmove ts)) ≤ 2) :
    (touchmove env ts s).surface = s.surface ∧
    (touchmove env ts s).isDrawing = false ∧
    (touchmove env ts s).currentStroke = none ∧
    ((touchmove env ts s).pending.active = true →
      (touchmove env ts s).pending.confirmed = false ∧
      (touchmove env ts s).pending.confirmCount + k ≤ 2) := by
  unfold touchmove
  split
  · exact ⟨rfl, hd, hcs, fun h => ⟨(hp h).1, by have := (hp h).2; omega⟩⟩
  split
  · rw [stopDrawing_of_not_drawing { s with pending := resetPending s.pending } hd]
    refine ⟨rfl, hd, hcs, fun h => ?_⟩
    simp [resetPending] at h
  split
  · rename_i touch hlen
    split
    · exact ⟨rfl, hd, hcs, fun h => ⟨(hp h).1, by have := (hp h).2; omega⟩⟩
    · rename_i hnot
      have ha : s.pending.active = true := by
        cases hb : s.pending.active
        · exact absurd ⟨hb, hd⟩ hnot
        · rfl
      have hconf := (hp ha).1
      have hcount := (hp ha).2
      dsimp only
      split
      · split
        · refine ⟨rfl, hd, hcs, fun h => ?_⟩
          simp [resetPending] at h
        · rename_i hsty
          have hstyT : isStylus touch = true := by
            cases hb : isStylus touch
            · exact absurd hb hsty
            · rfl
          have hm : evStylusMoves (env, Ev.tmove [touch]) = 1 := by
            simp [evStylusMoves, hstyT]
          rw [hm] at hcount
          split
          · rename_i h3
            exfalso
            omega
          · refine ⟨rfl, hd, hcs, fun _ => ⟨hconf, ?_⟩⟩
            show s.pending.confirmCount + 1 + k ≤ 2
            omega
      · rename_i hcond
        exact absurd ⟨ha, hconf⟩ hcond
  · exact ⟨rfl, hd, hcs, fun h => ⟨(hp h).1, by have := (hp h).2; omega⟩⟩

/-- A `touchend` from a quiet state: no paint, state stays quiet. -/
theorem touchend_quiet (ch : List Touch) (s : State) (k : Nat)
    (hd : s.isDrawing = false) (hcs : s.currentStroke = none)
    (hp : s.pending.active = true →
      s.pending.confirmed = false ∧ s.pending.confirmCount + k ≤ 2) :
    (touchend ch s).surface = s.surface ∧
    (touchend ch s).isDrawing = false ∧
    (touchend ch s).currentStroke = none ∧
    ((touchend ch s).pending.active = true →
      (touchend ch s).pending.confirmed = false ∧
      (touchend ch s).pending.confirmCount + k ≤ 2) := by
  unfold touchend
  split
  · rw [if_neg (by simp [hd])]
    refine ⟨rfl, hd, hcs, fun h => ?_⟩
    simp [resetPending] at h
  · rw [if_neg (by simp [hd])]
    exact ⟨rfl, hd, hcs, hp⟩

/-- Trace induction: from a quiet state whose pending counter cannot reach 3
within the trace's budget of stylus move samples, the surface never
changes. -/
theorem run_quiet (trace : List (Env × Ev)) :
    ∀ s : State, s.isDrawing = false → s.currentStroke = none →
      (s.pending.active = true →
        s.pending.confirmed = false ∧ s.pending.confirmCount + msCount trace ≤ 2) →
      msCount trace ≤ 1 →
      (run trace s).surface = s.surface := by
  induction trace with
  | nil =>
    intro s _ _ _ _
    rfl
  | cons p rest ih =>
    obtain ⟨env, ev⟩ := p
    intro s hd hcs hp hk
    have hmsc : msCount ((env, ev) :: rest) = evStylusMoves (env, ev) + msCount rest := by
      simp [msCount]
    have hkrest : msCount rest ≤ 1 := by omega
    cases ev with
    | tstart ts =>
      have hm : evStylusMoves (env, Ev.tstart ts) = 0 := rfl
      have h := touchstart_quiet env ts s (msCount rest) hd hcs
        (fun ha => ⟨(hp ha).1, by have := (hp ha).2; omega⟩) hkrest
      show (run rest (touchstart env ts s)).surface = s.surface
      rw [ih (touchstart env ts s) h.2.1 h.2.2.1 h.2.2.2 hkrest, h.1]
    | tmove ts =>
      have h := touchmove_quiet env ts s (msCount rest) hd hcs
        (fun ha => ⟨(hp ha).1, by have := (hp ha).2; omega⟩)
      show (run rest (touchmove env ts s)).surface = s.surface
      rw [ih (touchmove env ts s) h.2.1 h.2.2.1 h.2.2.2 hkrest, h.1]
    | tend ch =>
      have hm : evStylusMoves (env, Ev.tend ch) = 0 := rfl
      have h := touchend_quiet ch s (msCount rest) hd hcs
        (fun ha => ⟨(hp ha).1, by have := (hp ha).2; omega⟩)
      show (run rest (touchend ch s)).surface = s.surface
      rw [ih (touchend ch s) h.2.1 h.2.2.1 h.2.2.2 hkrest, h.1]

end SingleCanvas

/-- Claim C1, counterexample.  The claim: the visible stroke starts only
after 3 consecutive stylus-classified move events, so any sequence with
fewer than 3 such samples leaves the surface unchanged.  In the code
(touch-handler.js 191, 236) the counter starts at 1 on the stylus
touchstart and confirms at `>= 3`, so a contact followed by only TWO
stylus-classified move samples already paints a segment. -/
theorem c1_counterexample :
    SingleCanvas.msCount SingleCanvas.twoMoveTrace = 2 ∧
    (SingleCanvas.run SingleCanvas.twoMoveTrace SingleCanvas.initialState).surface ≠
      SingleCanvas.initialState.surface := by
  decide

/-- Claim C1, amended: the visible stroke starts only after the stylus
contact is followed by 2 consecutive stylus-classified move events (the
confirmation counter starts at 1 on the contact and confirms at ≥ 3), so
for any touch-event sequence containing fewer than 2 stylus-classified
single-touch move samples the surface stays identical to its pre-gesture
state; during pending confirmation, a single move event that fails
classification, or one whose touch count is not 1, aborts the gesture back
to idle without painting. -/
theorem c1_palm_rejection :
    (∀ (trace : List (SingleCanvas.Env × SingleCanvas.Ev)) (s : SingleCanvas.State),
        s.isDrawing = false → s.currentStroke = none → s.pending.active = false →
        SingleCanvas.msCount trace ≤ 1 →
        (SingleCanvas.run trace s).surface = s.surface) ∧
    (∀ (env : SingleCanvas.Env) (t : Touch) (s : SingleCanvas.State),
        s.drawingActive = true → s.pending.active = true →
        s.pending.confirmed = false → s.isDrawing = false →
        SingleCanvas.isStylus t = false →
        (SingleCanvas.touchmove env [t] s).surface = s.surface ∧
        (SingleCanvas.touchmove env [t] s).pending.active = false ∧
        (SingleCanvas.touchmove env [t] s).isDrawing = false) ∧
    (∀ (env : SingleCanvas.Env) (ts : List Touch) (s : SingleCanvas.State),
        s.drawingActive = true → ts.length ≠ 1 → s.isDrawing = false →
        (SingleCanvas.touchmove env ts s).surface = s.surface ∧
        (SingleCanvas.touchmove env ts s).pending.active = false ∧
        (SingleCanvas.touchmove env ts s).isDrawing = false) := by
  refine ⟨?_, ?_, ?_⟩
  · intro trace s hd hcs hpa hk
    refine SingleCanvas.run_quiet trace s hd hcs (fun h => ?_) hk
    rw [hpa] at h
    cases h
  · intro env t s hact hpa hconf hd hsty
    unfold SingleCanvas.touchmove
    rw [if_neg (by simp [hact])]
    rw [if_neg (by simp)]
    dsimp only
    rw [if_neg (by simp [hpa])]
    rw [if_pos ⟨hpa, hconf⟩]
    rw [if_pos hsty]
    exact ⟨rfl, by simp [SingleCanvas.resetPending], hd⟩
  · intro env ts s hact hlen hd
    unfold SingleCanvas.touchmove
    rw [if_neg (by simp [hact])]
    rw [if_pos hlen]
    rw [SingleCanvas.stopDrawing_of_not_drawing
      { s with pending := SingleCanvas.resetPending s.pending } hd]
    exact ⟨rfl, by simp [SingleCanvas.resetPending], hd⟩

/-- Claim C1, witness: a stylus contact with a single confirming move
followed by a touchend leaves the surface unchanged (only one stylus move
sample), and a finger-classified move while pending aborts the gesture
without painting. -/
theorem c1_witness :
    (SingleCanvas.run
        [(SingleCanvas.sampleEnv, SingleCanvas.Ev.tstart [SingleCanvas.stylusTouchAt 100 100]),
         (SingleCanvas.sampleEnv, SingleCanvas.Ev.tmove [SingleCanvas.stylusTouchAt 110 110]),
         (SingleCanvas.sampleEnv, SingleCanvas.Ev.tend [])]
        SingleCanvas.initialState).surface = SingleCanvas.initialState.surface ∧
    (SingleCanvas.touchmove SingleCanvas.sampleEnv [SingleCanvas.fingerTouchAt 115 115]
        SingleCanvas.onePendingMoveState).surface =
      SingleCanvas.onePendingMoveState.surface ∧
    (SingleCanvas.touchmove SingleCanvas.sampleEnv [SingleCanvas.fingerTouchAt 115 115]
        SingleCanvas.onePendingMoveState).pending.active = false := by
  have h1 := c1_palm_rejection.1
    [(SingleCanvas.sampleEnv, SingleCanvas.Ev.tstart [SingleCanvas.stylusTouchAt 100 100]),
     (SingleCanvas.sampleEnv, SingleCanvas.Ev.tmove [SingleCanvas.stylusTouchAt 110 110]),
     (SingleCanvas.sampleEnv, SingleCanvas.Ev.tend [])]
    SingleCanvas.initialState rfl rfl rfl (by decide)
  have h2 := c1_palm_rejection.2.1 SingleCanvas.sampleEnv (SingleCanvas.fingerTouchAt 115 115)
    SingleCanvas.onePendingMoveState (by decide) (by decide) (by decide) (by decide)
    (by decide)
  exact ⟨h1, h2.1, h2.2.1⟩

namespace SingleCanvas

/-- The drawing tail of a touch move, started from any state: the content
point is appended to the current stroke and, when a path point is present,
the screen-space segment from it is painted. -/
theorem moveSegment_checkLPM (env : Env) (t : Touch) (s : State) :
    (moveSegment env t (checkLongPressMovement t.clientX t.clientY s)).currentStroke =
      s.currentStroke.map (fun (cs : Stroke) =>
        { cs with points := cs.points ++
            [⟨t.clientX - env.canvasLeft, t.clientY - env.canvasTop + env.scrollTop⟩] }) ∧
    (moveSegment env t (checkLongPressMovement t.clientX t.clientY s)).surface =
      s.surface ++
        (match s.ctxPoint with
          | some q0 => [⟨q0, ⟨t.clientX - env.canvasLeft, t.clientY - env.canvasTop⟩⟩]
          | none => []) := by
  obtain ⟨lp, hlp⟩ := checkLongPressMovement_eq t.clientX t.clientY s
  rw [hlp]
  unfold moveSegment ctxLineToStroke
  dsimp only
  cases hcp : s.ctxPoint with
  | none => simp [hcp]
  | some q0 => simp [hcp]

end SingleCanvas

/-- Claim C8: once a pending gesture passes delayed confirmation (the
stylus-classified move that raises the counter to ≥ 3, touch-handler.js
236-258), the committed stroke's first point is the contact point recorded
at touch start — `(pendingStroke.contentX, pendingStroke.contentY)` in the
vector log and `moveTo(pendingStroke.startX, pendingStroke.startY)` for the
painted path — not the point of the confirming move event. -/
theorem c8_confirmation_replay :
    ∀ (env : SingleCanvas.Env) (t : Touch) (s : SingleCanvas.State),
      s.drawingActive = true → s.pending.active = true → s.pending.confirmed = false →
      2 ≤ s.pending.confirmCount → s.isDrawing = false →
      SingleCanvas.isStylus t = true →
      (SingleCanvas.touchmove env [t] s).currentStroke = some
        ⟨s.currentTool, s.currentColor, s.currentLineWidth,
          [⟨s.pending.contentX, s.pending.contentY⟩,
           ⟨t.clientX - env.canvasLeft, t.clientY - env.canvasTop + env.scrollTop⟩]⟩ ∧
      (SingleCanvas.touchmove env [t] s).surface = s.surface ++
        [⟨⟨s.pending.startX, s.pending.startY⟩,
          ⟨t.clientX - env.canvasLeft, t.clientY - env.canvasTop⟩⟩] := by
  intro env t s hact hpa hconf hcnt hd hsty
  unfold SingleCanvas.touchmove
  rw [if_neg (by simp [hact])]
  rw [if_neg (by simp)]
  dsimp only
  rw [if_neg (by simp [hpa])]
  rw [if_pos ⟨hpa, hconf⟩]
  rw [if_neg (by simp [hsty])]
  rw [if_pos (by omega)]
  constructor
  · rw [(SingleCanvas.moveSegment_checkLPM env t _).1]
    rfl
  · rw [(SingleCanvas.moveSegment_checkLPM env t _).2]

/-- Claim C8, witness: from the sample pending state (contact at (100,100)
with the pane scrolled to 100, counter at 2), the confirming move at
(120,120) commits a stroke whose first vector point is the recorded content
point (100, 200) and paints a segment starting at the recorded screen point
(100, 100) — not at the confirming point. -/
theorem c8_witness :
    (SingleCanvas.touchmove SingleCanvas.sampleEnv [SingleCanvas.stylusTouchAt 120 120]
        SingleCanvas.onePendingMoveState).currentStroke =
      some ⟨"pen", "#ef4444", 4, [⟨100, 200⟩, ⟨120, 220⟩]⟩ ∧
    (SingleCanvas.touchmove SingleCanvas.sampleEnv [SingleCanvas.stylusTouchAt 120 120]
        SingleCanvas.onePendingMoveState).surface = [⟨⟨100, 100⟩, ⟨120, 120⟩⟩] := by
  have h := c8_confirmation_replay SingleCanvas.sampleEnv (SingleCanvas.stylusTouchAt 120 120)
    SingleCanvas.onePendingMoveState (by decide) (by decide) (by decide) (by decide)
    (by decide) (by decide)
  exact ⟨h.1.trans (by decide), h.2.trans (by decide)⟩
